import Mathlib

/-!
Shallow embedding of `src/valhalla_nodes.py` (ValhallaNodes, GatherMate2 data
fixer and node importer).  Floats are modelled as rationals, Python dicts as
insertion-ordered association lists, and the network as oracle functions
supplied as parameters.
-/

/-- Python `int()` applied to a (rational-valued) number: truncation toward
zero, i.e. floor for nonnegative values and ceiling for negative ones. -/
def ratTrunc (q : ℚ) : ℤ := if 0 ≤ q then ⌊q⌋ else ⌈q⌉

/-- Function `format_coords` from `src/valhalla_nodes.py`:
`int(x * 10000 + 0.5) * 1000000 + int(y * 10000 + 0.5)`. -/
def format_coords (x y : ℚ) : ℤ :=
  ratTrunc (x * 10000 + 1/2) * 1000000 + ratTrunc (y * 10000 + 1/2)

/-- The packing formula as the spec words it (§4.1):
`floor(x*10000 + 0.5) * 1_000_000 + floor(y*10000 + 0.5)`. -/
def specPack (x y : ℚ) : ℤ :=
  ⌊x * 10000 + 1/2⌋ * 1000000 + ⌊y * 10000 + 1/2⌋

/-- Assignment `d[k] = v` on a Python dict modelled as an insertion-ordered
association list: an existing key keeps its position and gets the new value,
a new key is appended at the end. -/
def dictSet {α β : Type} [DecidableEq α] : List (α × β) → α → β → List (α × β)
  | [], k, v => [(k, v)]
  | (k', v') :: rest, k, v =>
    if k' = k then (k, v) :: rest else (k', v') :: dictSet rest k v

/-- A raw node observation as built by `scrape_nodes` and consumed by
`export_lua`: `{"map_name": ..., "node_name": ..., "coords": (x, y)}`. -/
structure Obs where
  map_name : String
  node_name : String
  coords : ℚ × ℚ
deriving DecidableEq, Repr

/-- The two-level grouping `nodes_by_map : dict[int, dict[int, int]]` built in
`export_lua`, as an insertion-ordered association list. -/
abbrev Grouping := List (ℤ × List (ℤ × ℤ))

/-- Operation `nodes_by_map.setdefault(map_id, ...)[packed] = node_id`: update the inner
dict of `mid` in place, or append a fresh singleton inner dict. -/
def setIn : Grouping → ℤ → ℤ → ℤ → Grouping
  | [], mid, packed, nid => [(mid, [(packed, nid)])]
  | (m, inner) :: rest, mid, packed, nid =>
    if m = mid then (m, dictSet inner packed nid) :: rest
    else (m, inner) :: setIn rest mid packed nid

/-- One iteration of the aggregation loop of `export_lua`: resolve the map and
node names; unresolvable observations are skipped, otherwise the packed
coordinate is assigned the node id. -/
def aggStep (map_ids node_ids : List (String × ℤ)) (g : Grouping) (item : Obs) :
    Grouping :=
  match List.lookup item.map_name map_ids, List.lookup item.node_name node_ids with
  | some mid, some nid =>
    setIn g mid (format_coords item.coords.1 item.coords.2) nid
  | _, _ => g

/-- The aggregation loop of `export_lua`, starting from the empty dict. -/
def aggregate (nodes : List Obs) (map_ids node_ids : List (String × ℤ)) :
    Grouping :=
  nodes.foldl (aggStep map_ids node_ids) []

/-- Lookup in the two-level grouping. -/
def lookupG (g : Grouping) (mid packed : ℤ) : Option ℤ :=
  match List.lookup mid g with
  | some inner => List.lookup packed inner
  | none => none

/-- Does this observation resolve to map id `mid` and packed coordinate
`packed` (with some node id), i.e. would `aggStep` write to that key? -/
def writesKey (map_ids node_ids : List (String × ℤ)) (o : Obs) (mid packed : ℤ) :
    Bool :=
  match List.lookup o.map_name map_ids, List.lookup o.node_name node_ids with
  | some m, some _ => m = mid ∧ format_coords o.coords.1 o.coords.2 = packed
  | _, _ => false

/-- Python `str.capitalize()`: first character upper-cased, all remaining
characters lower-cased. -/
def pythonCapitalize (s : String) : String :=
  match s.data with
  | [] => ""
  | c :: rest => String.mk (c.toUpper :: rest.map Char.toLower)

/-- Capitalization as the spec words it (§4.4): first letter upper-cased and
the rest unchanged. -/
def specCapitalize (s : String) : String :=
  match s.data with
  | [] => ""
  | c :: rest => String.mk (c.toUpper :: rest)

/-- The lines appended for one map block of the Lua output:
`  [m_id] = {`, one `    [packed] = n_id,` line per entry, then `  },`. -/
def mapBlockLines (b : ℤ × List (ℤ × ℤ)) : List String :=
  ("  [" ++ toString b.1 ++ "] = \x7b")
    :: (b.2.map fun e => "    [" ++ toString e.1 ++ "] = " ++ toString e.2 ++ ",")
    ++ ["  \x7d,"]

/-- List `lua_lines` as built by `export_lua`: the header, the loop over
`nodes_by_map.items()` appending each map block, then the bare brace. -/
def luaLines (node_type : String) (g : Grouping) : List String :=
  (g.foldl (fun acc b => acc ++ mapBlockLines b)
      ["GatherMate2" ++ pythonCapitalize node_type ++ "Data = \x7b"]) ++ ["\x7d"]

/-- Python `os.path.join(dir, file)` for the relative file names used here: the
separator is inserted unless `dir` is empty or already ends in a slash. -/
def pyJoin (dir file : String) : String :=
  if dir = "" then file
  else if dir.data.getLast? = some '/' then dir ++ file
  else dir ++ "/" ++ file

/-- The observable outcome of `export_lua`: the lines and text written, the
target path, and the two identifier mappings as they stand after the call. -/
structure ExportResult where
  grouping : Grouping
  lines : List String
  text : String
  path : String
  map_ids : List (String × ℤ)
  node_ids : List (String × ℤ)
deriving DecidableEq, Repr

/-- Function `export_lua` from `src/valhalla_nodes.py`: aggregate the observations into
`nodes_by_map`, render the Lua table literal, and write it to
`os.path.join(out_dir, node_type.capitalize() + "Data.lua")`. -/
def export_lua (node_type : String) (nodes : List Obs)
    (map_ids node_ids : List (String × ℤ)) (out_dir : String) : ExportResult :=
  let g := aggregate nodes map_ids node_ids
  let lines := luaLines node_type g
  { grouping := g
    lines := lines
    text := String.intercalate "\n" lines
    path := pyJoin out_dir (pythonCapitalize node_type ++ "Data.lua")
    map_ids := map_ids
    node_ids := node_ids }

/-- One Wowhead object row of the parsed top-level listing: the fields of
`obj` that `scrape_nodes` reads (`id`, `displayName`, `name`). -/
structure WObject where
  id : Option ℤ
  displayName : Option String
  name : Option String
deriving DecidableEq, Repr

/-- One entry of the `g_mapperData` JSON on a detail page: the fields
`scrape_nodes` reads (`uiMapName` and `coords`).  A coordinate pair whose
`float()` conversion raises is modelled as `none` (it is silently skipped). -/
structure MapperEntry where
  uiMapName : Option String
  coords : List (Option (ℚ × ℚ))
deriving DecidableEq, Repr

/-- An observation as appended by `scrape_nodes`; `uiMapName` may be absent,
in which case the stored `map_name` is Python `None`. -/
structure SObs where
  map_name : Option String
  node_name : String
  coords : ℚ × ℚ
deriving DecidableEq, Repr

/-- Outcome of fetching and parsing one object's detail page, abstracting the
HTTP GET, the `g_mapperData` regex and the JSON decode of `scrape_nodes`. -/
inductive DetailResult where
  | fetchFail (msg : String)
  | noMarker
  | badJson
  | ok (mapper : List (List MapperEntry))
deriving DecidableEq

/-- Outcome of fetching and parsing a category's top-level object-list page,
abstracting the HTTP GET, the `new Listview` script search, the regex match
and the JSON decode of `scrape_nodes`. -/
inductive ListFetchResult where
  | fetchFail (msg : String)
  | noListData
  | noMatch
  | jsonFail (msg : String)
  | ok (objects : List WObject)
deriving DecidableEq

/-- Did the detail-page pipeline for one object fail? -/
def detailFails : DetailResult → Bool
  | .ok _ => false
  | _ => true

/-- Did the top-level list-page pipeline fail? -/
def listFails : ListFetchResult → Bool
  | .ok _ => false
  | _ => true

/-- Table `WOWHEAD_OBJECT_PAGES` from `src/valhalla_nodes.py`. -/
def WOWHEAD_OBJECT_PAGES : List (String × String) :=
  [("herbalism", "https://www.wowhead.com/objects/herbs"),
   ("mining", "https://www.wowhead.com/objects/mining"),
   ("fishing", "https://www.wowhead.com/objects/fishing"),
   ("treasure", "https://www.wowhead.com/objects/treasure"),
   ("gas", "https://www.wowhead.com/objects/gas-clouds")]

/-- Python `a or b` where `a` is an optional string: `None` and the empty
string are falsy. -/
def pyOrStr (a : Option String) (b : String) : String :=
  match a with
  | some s => if s = "" then b else s
  | none => b

/-- The observations emitted from one `g_mapperData` blob: for each zone's
entry list, for each entry, one observation per successfully converted
coordinate pair, carrying the entry's `uiMapName` and the object's name. -/
def mapperObs (obj_name : String) (mapper : List (List MapperEntry)) :
    List SObs :=
  mapper.flatMap fun zone_entries =>
    zone_entries.flatMap fun entry =>
      entry.coords.filterMap fun c =>
        c.map fun xy => ⟨entry.uiMapName, obj_name, xy⟩

/-- One iteration of the object loop of `scrape_nodes`, threading the
accumulated observation list and the accumulated log lines.  An object whose
`id` is falsy (absent, `None`, or `0`) is skipped before any fetch; a detail
fetch failure logs and skips; a missing marker or bad JSON silently skips. -/
def processObject (node_type : String) (detail : ℤ → DetailResult)
    (st : List SObs × List String) (obj : WObject) : List SObs × List String :=
  let obj_name := pyOrStr obj.displayName (pyOrStr obj.name node_type)
  match obj.id with
  | none => st
  | some i =>
    if i = 0 then st
    else
      let url := "https://www.wowhead.com/object=" ++ toString i
      let st1 := (st.1, st.2 ++ ["  Fetching " ++ url ++ "\n"])
      match detail i with
      | .fetchFail msg =>
        (st1.1, st1.2 ++ ["    Failed to fetch " ++ url ++ ": " ++ msg ++ "\n"])
      | .noMarker => st1
      | .badJson => st1
      | .ok mapper => (st1.1 ++ mapperObs obj_name mapper, st1.2)

/-- Python `str.lower()` (ASCII): every character lower-cased. -/
def pyLower (s : String) : String :=
  String.mk (s.data.map Char.toLower)

/-- The part of `scrape_nodes` from the arrival of the top-level listing
outcome onward: the failure logs for a failed listing, or the object loop. -/
def scrapeFromList (node_type page_url : String) (lpr : ListFetchResult)
    (detail : ℤ → DetailResult) : List SObs × List String :=
  let log0 := ["Fetching " ++ page_url ++ "\n"]
  match lpr with
  | .fetchFail msg =>
    ([], log0 ++ ["Failed to fetch " ++ page_url ++ ": " ++ msg ++ "\n"])
  | .noListData => ([], log0 ++ ["No list data on " ++ page_url ++ "\n"])
  | .noMatch =>
    ([], log0 ++ ["Failed to parse list data on " ++ page_url ++ "\n"])
  | .jsonFail msg =>
    ([], log0 ++ ["Failed to decode list data on " ++ page_url ++ ": "
      ++ msg ++ "\n"])
  | .ok objects =>
    let st := objects.foldl (processObject node_type detail) ([], log0)
    (st.1, st.2 ++ ["Parsed " ++ toString st.1.length ++ " nodes from "
      ++ page_url ++ "\n"])

/-- Function `scrape_nodes` from `src/valhalla_nodes.py`, with the network abstracted
into two oracles: `fetchList` gives the outcome of fetching and parsing a
top-level listing URL, `detail` the outcome for an object id's detail page.
Returns the observation list and the lines written to `log_callback`. -/
def scrape_nodes (node_type expansion : String)
    (fetchList : String → ListFetchResult) (detail : ℤ → DetailResult) :
    List SObs × List String :=
  match List.lookup (pyLower node_type) WOWHEAD_OBJECT_PAGES with
  | none => ([], ["No Wowhead page for " ++ node_type ++ "\n"])
  | some page_url => scrapeFromList node_type page_url (fetchList page_url) detail

/-! ### Helper lemmas -/

/-- Truncation agrees with floor on nonnegative values. -/
lemma ratTrunc_of_nonneg {q : ℚ} (h : 0 ≤ q) : ratTrunc q = ⌊q⌋ := by
  unfold ratTrunc; rw [if_pos h]

/-- Floor of a natural number plus one half. -/
lemma floor_natCast_add_half (n : ℕ) : ⌊(n : ℚ) + 1/2⌋ = (n : ℤ) := by
  have h : ((n : ℚ) + 1/2) = ((n : ℤ) : ℚ) + 1/2 := by push_cast; ring
  rw [h, Int.floor_int_add]
  norm_num

/-- Evaluation of `format_coords` on coordinates that are exact multiples of `1/10000`:
the packed value is `a * 1000000 + b` for scaled inputs `a/10000`, `b/10000`. -/
lemma format_coords_scaled (a b : ℕ) :
    format_coords ((a : ℚ) / 10000) ((b : ℚ) / 10000) =
      (a : ℤ) * 1000000 + (b : ℤ) := by
  have hmul : ∀ n : ℕ, ((n : ℚ) / 10000) * 10000 + 1/2 = (n : ℚ) + 1/2 := by
    intro n
    field_simp
  have hpos : ∀ n : ℕ, (0 : ℚ) ≤ (n : ℚ) + 1/2 := by
    intro n
    positivity
  unfold format_coords
  rw [hmul, hmul, ratTrunc_of_nonneg (hpos a), ratTrunc_of_nonneg (hpos b),
    floor_natCast_add_half, floor_natCast_add_half]

/-! ### C1: format_coords versus the spec's floor formula -/

/-- C1 counterexample: at `x = -1, y = 0` the code's `int()` truncation
rounds toward zero, so `format_coords` does not match the claimed
floor-based formula. -/
theorem format_coords_floor_cex : format_coords (-1) 0 ≠ specPack (-1) 0 := by
  norm_num [format_coords, specPack, ratTrunc, Int.ceil_neg]

/-- C1 (amended): whenever the two scaled-and-biased values are nonnegative
(in particular for all nonnegative coordinates, hence on the whole practical
domain `[0, 100]`), `format_coords x y` equals
`floor(x*10000 + 0.5) * 1000000 + floor(y*10000 + 0.5)`. -/
theorem format_coords_eq_floor_formula (x y : ℚ)
    (hx : 0 ≤ x * 10000 + 1/2) (hy : 0 ≤ y * 10000 + 1/2) :
    format_coords x y = specPack x y := by
  unfold format_coords specPack
  rw [ratTrunc_of_nonneg hx, ratTrunc_of_nonneg hy]

/-- C1 witness: the amended theorem applied at `(12.3, 45.6)`. -/
theorem format_coords_eq_floor_formula_witness :
    format_coords 12.3 45.6 = specPack 12.3 45.6 :=
  format_coords_eq_floor_formula 12.3 45.6 (by norm_num) (by norm_num)

/-! ### C2: injectivity of format_coords on the practical domain -/

/-- C2 counterexample: the two distinct pairs `(0.0001, 0)` and `(0, 100)`,
both with components in `[0, 100]` and at most 4 decimal digits, pack to the
same integer `1000000`, so `format_coords` is not injective on the claimed
domain. -/
theorem format_coords_injective_cex :
    format_coords (1/10000) 0 = format_coords 0 100 ∧
      ((1 : ℚ)/10000 ≠ 0 ∨ (0 : ℚ) ≠ 100) := by
  constructor
  · norm_num [format_coords, ratTrunc]
  · left
    norm_num

/-- C2 (amended): `format_coords` is injective over pairs `(a/10000, b/10000)`
with `a ≤ 1000000` and `b < 1000000`, i.e. with the x-component in `[0, 100]`
and the y-component in `[0, 100)`, each with at most 4 decimal digits.  (At
`y = 100` exactly, the y-axis value `1000000` spills into the x-axis digits.) -/
theorem format_coords_injective_on_domain (a1 b1 a2 b2 : ℕ)
    (ha1 : a1 ≤ 1000000) (hb1 : b1 < 1000000)
    (ha2 : a2 ≤ 1000000) (hb2 : b2 < 1000000)
    (hne : a1 ≠ a2 ∨ b1 ≠ b2) :
    format_coords ((a1 : ℚ) / 10000) ((b1 : ℚ) / 10000) ≠
      format_coords ((a2 : ℚ) / 10000) ((b2 : ℚ) / 10000) := by
  rw [format_coords_scaled, format_coords_scaled]
  intro h
  omega

/-- C2 witness: the amended theorem applied at `(0.0001, 0)` and `(0, 0.0001)`. -/
theorem format_coords_injective_on_domain_witness :
    format_coords (((1 : ℕ) : ℚ) / 10000) (((0 : ℕ) : ℚ) / 10000) ≠
      format_coords (((0 : ℕ) : ℚ) / 10000) (((1 : ℕ) : ℚ) / 10000) :=
  format_coords_injective_on_domain 1 0 0 1 (by norm_num) (by norm_num)
    (by norm_num) (by norm_num) (Or.inl (by norm_num))

/-! ### C7: the spec's test vectors -/

/-- C7: `format_coords` reproduces the spec's test vectors
`(12.3, 45.6) ↦ 123000456000`, `(0, 0) ↦ 0` and
`(100, 100) ↦ 1000000000000 + 1000000`. -/
theorem format_coords_test_vectors :
    format_coords 12.3 45.6 = 123000456000 ∧ format_coords 0 0 = 0 ∧
      format_coords 100 100 = 1000000000000 + 1000000 := by
  refine ⟨?_, ?_, ?_⟩ <;> norm_num [format_coords, ratTrunc]

/-! ### Aggregation lemmas -/

/-- Association-list lookup at the head key. -/
lemma lookup_cons_self {α β : Type} [BEq α] [LawfulBEq α] (k : α) (v : β)
    (l : List (α × β)) : List.lookup k ((k, v) :: l) = some v := by
  simp [List.lookup]

/-- Association-list lookup skips a head with a different key. -/
lemma lookup_cons_of_ne {α β : Type} [BEq α] [LawfulBEq α] {k k' : α} (v : β)
    (l : List (α × β)) (h : k' ≠ k) :
    List.lookup k' ((k, v) :: l) = List.lookup k' l := by
  simp [List.lookup, beq_false_of_ne h]

/-- Looking up the key just assigned by `dictSet` yields the new value. -/
lemma lookup_dictSet_eq {α β : Type} [DecidableEq α] [BEq α] [LawfulBEq α]
    (d : List (α × β)) (k : α) (v : β) :
    List.lookup k (dictSet d k v) = some v := by
  induction d with
  | nil => simp [dictSet, lookup_cons_self]
  | cons hd tl ih =>
    obtain ⟨k', v'⟩ := hd
    by_cases h : k' = k
    · subst h
      simp [dictSet, lookup_cons_self]
    · rw [dictSet, if_neg h, lookup_cons_of_ne _ _ (Ne.symm h), ih]

/-- Update `dictSet` leaves the value of every other key unchanged. -/
lemma lookup_dictSet_ne {α β : Type} [DecidableEq α] [BEq α] [LawfulBEq α]
    (d : List (α × β)) (k k' : α) (v : β) (h : k' ≠ k) :
    List.lookup k' (dictSet d k v) = List.lookup k' d := by
  induction d with
  | nil => simp [dictSet, List.lookup, beq_false_of_ne h]
  | cons hd tl ih =>
    obtain ⟨k'', v'⟩ := hd
    by_cases h' : k'' = k
    · subst h'
      rw [dictSet, if_pos rfl, lookup_cons_of_ne _ _ h, lookup_cons_of_ne _ _ h]
    · by_cases h'' : k' = k''
      · subst h''
        rw [dictSet, if_neg h', lookup_cons_self, lookup_cons_self]
      · rw [dictSet, if_neg h', lookup_cons_of_ne _ _ h'',
          lookup_cons_of_ne _ _ h'', ih]

/-- After `setIn`, the outer dict maps `mid` to its previous inner dict (or a
fresh empty one) updated with the new entry. -/
lemma lookup_setIn_self (g : Grouping) (mid packed nid : ℤ) :
    List.lookup mid (setIn g mid packed nid) =
      some (dictSet ((List.lookup mid g).getD []) packed nid) := by
  induction g with
  | nil => simp [setIn, lookup_cons_self, List.lookup, dictSet]
  | cons hd tl ih =>
    obtain ⟨m, inner⟩ := hd
    by_cases h : m = mid
    · subst h
      rw [setIn, if_pos rfl, lookup_cons_self, lookup_cons_self]
      rfl
    · rw [setIn, if_neg h, lookup_cons_of_ne _ _ (Ne.symm h),
        lookup_cons_of_ne _ _ (Ne.symm h), ih]

/-- Update `setIn` leaves every other map id's inner dict unchanged. -/
lemma lookup_setIn_ne (g : Grouping) (mid mid' packed nid : ℤ) (h : mid' ≠ mid) :
    List.lookup mid' (setIn g mid packed nid) = List.lookup mid' g := by
  induction g with
  | nil => simp [setIn, List.lookup, beq_false_of_ne h]
  | cons hd tl ih =>
    obtain ⟨m, inner⟩ := hd
    by_cases h' : m = mid
    · subst h'
      rw [setIn, if_pos rfl, lookup_cons_of_ne _ _ h, lookup_cons_of_ne _ _ h]
    · by_cases h'' : mid' = m
      · subst h''
        rw [setIn, if_neg h', lookup_cons_self, lookup_cons_self]
      · rw [setIn, if_neg h', lookup_cons_of_ne _ _ h'',
          lookup_cons_of_ne _ _ h'', ih]

/-- Looking up the key just written by `setIn` yields the new node id. -/
lemma lookupG_setIn_eq (g : Grouping) (mid packed nid : ℤ) :
    lookupG (setIn g mid packed nid) mid packed = some nid := by
  unfold lookupG
  rw [lookup_setIn_self]
  simp [lookup_dictSet_eq]

/-- Update `setIn` leaves every other (map id, packed coordinate) key unchanged. -/
lemma lookupG_setIn_ne (g : Grouping) (mid packed nid mid' packed' : ℤ)
    (h : ¬(mid' = mid ∧ packed' = packed)) :
    lookupG (setIn g mid packed nid) mid' packed' = lookupG g mid' packed' := by
  unfold lookupG
  by_cases hm : mid' = mid
  · subst hm
    have hp : packed' ≠ packed := fun hp => h ⟨rfl, hp⟩
    rw [lookup_setIn_self]
    cases hg : List.lookup mid' g with
    | none =>
      simp [lookup_dictSet_ne _ _ _ _ hp, List.lookup, beq_false_of_ne hp]
    | some inner => simp [lookup_dictSet_ne _ _ _ _ hp]
  · rw [lookup_setIn_ne _ _ _ _ _ hm]

/-- Step `aggStep` on an observation that resolves to `(mid, nid)` writes the
packed coordinate into that map's inner dict. -/
lemma aggStep_resolves (mids nids : List (String × ℤ)) (g : Grouping) (o : Obs)
    (mid nid : ℤ) (hm : List.lookup o.map_name mids = some mid)
    (hn : List.lookup o.node_name nids = some nid) :
    aggStep mids nids g o = setIn g mid (format_coords o.coords.1 o.coords.2) nid := by
  unfold aggStep
  rw [hm, hn]

/-- Step `aggStep` on an observation whose map name or node name is unmapped
leaves the grouping untouched. -/
lemma aggStep_skips (mids nids : List (String × ℤ)) (g : Grouping) (o : Obs)
    (h : List.lookup o.map_name mids = none ∨
      List.lookup o.node_name nids = none) :
    aggStep mids nids g o = g := by
  unfold aggStep
  rcases h with h | h
  · rw [h]
  · rw [h]
    cases List.lookup o.map_name mids <;> rfl

/-- Step `aggStep` on an observation that does not write key `(mid, packed)`
leaves the grouping's value at that key unchanged. -/
lemma aggStep_preserves_key (mids nids : List (String × ℤ)) (g : Grouping)
    (o : Obs) (mid packed : ℤ) (h : writesKey mids nids o mid packed = false) :
    lookupG (aggStep mids nids g o) mid packed = lookupG g mid packed := by
  unfold writesKey at h
  unfold aggStep
  cases hm : List.lookup o.map_name mids with
  | none => rfl
  | some m =>
    cases hn : List.lookup o.node_name nids with
    | none => rfl
    | some n =>
      rw [hm, hn] at h
      rw [decide_eq_false_iff_not] at h
      exact lookupG_setIn_ne _ _ _ _ _ _ fun hc => h ⟨hc.1.symm, hc.2.symm⟩

/-- Folding `aggStep` over observations none of which writes `(mid, packed)`
leaves the grouping's value at that key unchanged. -/
lemma lookupG_foldl_aggStep (mids nids : List (String × ℤ)) (os : List Obs)
    (g : Grouping) (mid packed : ℤ)
    (h : ∀ o ∈ os, writesKey mids nids o mid packed = false) :
    lookupG (os.foldl (aggStep mids nids) g) mid packed = lookupG g mid packed := by
  induction os generalizing g with
  | nil => rfl
  | cons o os ih =>
    rw [List.foldl_cons, ih _ fun o' ho' => h o' (List.mem_cons_of_mem _ ho'),
      aggStep_preserves_key _ _ _ _ _ _ (h o (List.mem_cons_self o os))]

/-- Folding `aggStep` over observations that all fail to resolve leaves the
grouping unchanged. -/
lemma foldl_aggStep_all_skip (mids nids : List (String × ℤ)) (os : List Obs)
    (g : Grouping)
    (h : ∀ o ∈ os, List.lookup o.map_name mids = none ∨
      List.lookup o.node_name nids = none) :
    os.foldl (aggStep mids nids) g = g := by
  induction os generalizing g with
  | nil => rfl
  | cons o os ih =>
    rw [List.foldl_cons, aggStep_skips _ _ _ _ (h o (List.mem_cons_self o os)),
      ih _ fun o' ho' => h o' (List.mem_cons_of_mem _ ho')]

/-! ### C3: last write wins per (map id, packed coordinate) -/

/-- C3: if two observations in the sequence resolve to the same map id `m`
and the same packed coordinate `p` but to different node ids, and the later
of the two is the last observation writing to that key, then the grouping
built by `export_lua` holds exactly the later observation's node id at
`(m, p)`. -/
theorem export_lua_last_write_wins
    (nt d : String) (mids nids : List (String × ℤ))
    (pre between post : List Obs) (o1 o2 : Obs) (m p n1 n2 : ℤ)
    (hm1 : List.lookup o1.map_name mids = some m)
    (hn1 : List.lookup o1.node_name nids = some n1)
    (hp1 : format_coords o1.coords.1 o1.coords.2 = p)
    (hm2 : List.lookup o2.map_name mids = some m)
    (hn2 : List.lookup o2.node_name nids = some n2)
    (hp2 : format_coords o2.coords.1 o2.coords.2 = p)
    (hne : n1 ≠ n2)
    (hpost : ∀ o ∈ post, writesKey mids nids o m p = false) :
    lookupG (export_lua nt (pre ++ o1 :: between ++ o2 :: post) mids nids d).grouping
      m p = some n2 := by
  show lookupG ((pre ++ o1 :: between ++ o2 :: post).foldl (aggStep mids nids) []) m p
      = some n2
  rw [List.foldl_append, List.foldl_cons, List.foldl_append, List.foldl_cons,
    lookupG_foldl_aggStep _ _ _ _ _ _ hpost,
    aggStep_resolves _ _ _ _ _ _ hm2 hn2, hp2, lookupG_setIn_eq]

/-- C3 witness: two observations at the same spot of the same map, classified
first as node 1 and then as node 2; the grouping keeps node 2. -/
theorem export_lua_last_write_wins_witness :
    lookupG (export_lua "herbalism"
        [⟨"M", "A", (1, 2)⟩, ⟨"M", "B", (1, 2)⟩]
        [("M", 7)] [("A", 1), ("B", 2)] "out").grouping 7 10000020000 = some 2 :=
  export_lua_last_write_wins "herbalism" "out" [("M", 7)] [("A", 1), ("B", 2)]
    [] [] [] ⟨"M", "A", (1, 2)⟩ ⟨"M", "B", (1, 2)⟩ 7 10000020000 1 2
    rfl rfl (by norm_num [format_coords, ratTrunc]) rfl rfl
    (by norm_num [format_coords, ratTrunc]) (by decide) (by simp)

/-! ### C4: unresolvable observations are dropped without effect -/

/-- C4: an observation whose map name or node name is absent from the
respective mapping contributes nothing: the whole result of `export_lua`
(grouping, output lines, text, path and mappings) is the same as if the
observation were not in the sequence at all; being a total function, the
embedded aggregation raises nothing on such observations. -/
theorem export_lua_drops_unresolvable
    (nt d : String) (mids nids : List (String × ℤ))
    (pre post : List Obs) (o : Obs)
    (h : List.lookup o.map_name mids = none ∨
      List.lookup o.node_name nids = none) :
    export_lua nt (pre ++ o :: post) mids nids d =
      export_lua nt (pre ++ post) mids nids d := by
  have hagg : aggregate (pre ++ o :: post) mids nids = aggregate (pre ++ post) mids nids := by
    unfold aggregate
    rw [List.foldl_append, List.foldl_append, List.foldl_cons,
      aggStep_skips _ _ _ _ h]
  unfold export_lua
  rw [hagg]

/-- C4 witness: an observation with an unmapped map name is dropped from a
batch that also holds a resolvable observation. -/
theorem export_lua_drops_unresolvable_witness :
    export_lua "herbalism" [⟨"Nowhere", "A", (1, 2)⟩, ⟨"M", "A", (1, 2)⟩]
        [("M", 7)] [("A", 1)] "out" =
      export_lua "herbalism" [⟨"M", "A", (1, 2)⟩] [("M", 7)] [("A", 1)] "out" :=
  export_lua_drops_unresolvable "herbalism" "out" [("M", 7)] [("A", 1)]
    [] [⟨"M", "A", (1, 2)⟩] ⟨"Nowhere", "A", (1, 2)⟩ (Or.inl (by simp [List.lookup]))

/-! ### C9: export_lua does not mutate the identifier mappings -/

/-- C9: after `export_lua`, the two identifier mappings are exactly the ones
passed in; the embedded function threads them through unchanged (the source
only ever calls `dict.get` on them). -/
theorem export_lua_preserves_mappings (nt d : String) (nodes : List Obs)
    (mids nids : List (String × ℤ)) :
    (export_lua nt nodes mids nids d).map_ids = mids ∧
      (export_lua nt nodes mids nids d).node_ids = nids :=
  ⟨rfl, rfl⟩

/-! ### Serializer lemmas -/

/-- A left fold that appends a block per element is the initial segment
followed by the concatenation of all blocks. -/
lemma foldl_append_blocks {α β : Type} (l : List α) (f : α → List β)
    (init : List β) :
    l.foldl (fun acc x => acc ++ f x) init = init ++ l.flatMap f := by
  induction l generalizing init with
  | nil => simp
  | cons x xs ih => simp [ih, List.flatMap_cons, List.append_assoc]

/-! ### C5: the fixed output format of export_lua -/

/-- C5 counterexample: for the category string "aB" the code's
`str.capitalize()` lower-cases the tail, so the header is
`GatherMate2AbData = {` and not, as the claim has it, the category with only
its first letter upper-cased and the rest unchanged (`GatherMate2ABData = {`). -/
theorem export_lua_header_cex :
    (export_lua "aB" [] [] [] "out").lines.head? = some "GatherMate2AbData = \x7b" ∧
      "GatherMate2AbData = \x7b" ≠
        "GatherMate2" ++ specCapitalize "aB" ++ "Data = \x7b" := by
  constructor
  · rfl
  · decide

/-- C5 (amended): for every category and input, the text written by
`export_lua` has the fixed format — header line
`GatherMate2<Category>Data = {`, one block per map of a `  [mapId] = {` line,
`    [packed] = nodeId,` entry lines and a `  },` terminator, and a final bare
`}` — and it goes to `<outDir>/<Category>Data.lua`, where `<Category>` is the
category with its first letter upper-cased and the rest lower-cased (Python
`str.capitalize()`), not with the rest unchanged. -/
theorem export_lua_format (nt d : String) (nodes : List Obs)
    (mids nids : List (String × ℤ))
    (hd : d ≠ "") (hs : d.data.getLast? ≠ some '/') :
    (export_lua nt nodes mids nids d).lines =
      ("GatherMate2" ++ pythonCapitalize nt ++ "Data = \x7b")
        :: ((export_lua nt nodes mids nids d).grouping.flatMap fun b =>
            ("  [" ++ toString b.1 ++ "] = \x7b")
              :: (b.2.map fun e =>
                  "    [" ++ toString e.1 ++ "] = " ++ toString e.2 ++ ",")
              ++ ["  \x7d,"]) ++ ["\x7d"] ∧
      (export_lua nt nodes mids nids d).text =
        String.intercalate "\n" (export_lua nt nodes mids nids d).lines ∧
      (export_lua nt nodes mids nids d).path =
        d ++ "/" ++ pythonCapitalize nt ++ "Data.lua" := by
  refine ⟨?_, rfl, ?_⟩
  · show luaLines nt (aggregate nodes mids nids) = _
    unfold luaLines
    rw [foldl_append_blocks]
    rfl
  · show pyJoin d (pythonCapitalize nt ++ "Data.lua") = _
    unfold pyJoin
    rw [if_neg hd, if_neg hs]
    exact (String.append_assoc (d ++ "/") (pythonCapitalize nt) "Data.lua").symm

/-- C5 witness: the amended format theorem applied to a concrete batch. -/
theorem export_lua_format_witness :
    (export_lua "herbalism" [⟨"M", "A", (1, 2)⟩] [("M", 7)] [("A", 1)] "out").lines =
      ("GatherMate2" ++ pythonCapitalize "herbalism" ++ "Data = \x7b")
        :: ((export_lua "herbalism" [⟨"M", "A", (1, 2)⟩] [("M", 7)] [("A", 1)]
              "out").grouping.flatMap fun b =>
            ("  [" ++ toString b.1 ++ "] = \x7b")
              :: (b.2.map fun e =>
                  "    [" ++ toString e.1 ++ "] = " ++ toString e.2 ++ ",")
              ++ ["  \x7d,"]) ++ ["\x7d"] ∧
      (export_lua "herbalism" [⟨"M", "A", (1, 2)⟩] [("M", 7)] [("A", 1)] "out").text =
        String.intercalate "\n"
          (export_lua "herbalism" [⟨"M", "A", (1, 2)⟩] [("M", 7)] [("A", 1)] "out").lines ∧
      (export_lua "herbalism" [⟨"M", "A", (1, 2)⟩] [("M", 7)] [("A", 1)] "out").path =
        "out" ++ "/" ++ pythonCapitalize "herbalism" ++ "Data.lua" :=
  export_lua_format "herbalism" "out" [⟨"M", "A", (1, 2)⟩] [("M", 7)] [("A", 1)]
    (by decide) (by decide)

/-! ### C6: serializing an empty grouping -/

/-- C6: when no observation resolves (in particular when there are none), the
text produced for category "herbalism" is exactly the header line followed by
a bare closing brace. -/
theorem export_lua_empty_text (d : String) (nodes : List Obs)
    (mids nids : List (String × ℤ))
    (h : ∀ o ∈ nodes, List.lookup o.map_name mids = none ∨
      List.lookup o.node_name nids = none) :
    (export_lua "herbalism" nodes mids nids d).text =
      "GatherMate2HerbalismData = \x7b\n\x7d" := by
  have hagg : aggregate nodes mids nids = [] := foldl_aggStep_all_skip _ _ _ _ h
  show String.intercalate "\n" (luaLines "herbalism" (aggregate nodes mids nids)) = _
  rw [hagg]
  rfl

/-- C6 witness: the empty observation sequence. -/
theorem export_lua_empty_text_witness :
    (export_lua "herbalism" [] [] [] "out").text =
      "GatherMate2HerbalismData = \x7b\n\x7d" :=
  export_lua_empty_text "out" [] [] [] (by simp)

/-! ### Scrape lemmas -/

/-- The observation component produced by one object-loop iteration depends
only on the observation component of the incoming state, not on the log. -/
lemma processObject_fst_congr (nt : String) (detail : ℤ → DetailResult)
    (o : WObject) (st st' : List SObs × List String) (h : st.1 = st'.1) :
    (processObject nt detail st o).1 = (processObject nt detail st' o).1 := by
  unfold processObject
  cases o.id with
  | none => exact h
  | some i =>
    by_cases hi : i = 0
    · simp only [if_pos hi]
      exact h
    · simp only [if_neg hi]
      cases detail i <;> simp [h]

/-- The observation component of the whole object loop depends only on the
observation component of the starting state. -/
lemma foldl_processObject_fst_congr (nt : String) (detail : ℤ → DetailResult)
    (os : List WObject) (st st' : List SObs × List String) (h : st.1 = st'.1) :
    (os.foldl (processObject nt detail) st).1 =
      (os.foldl (processObject nt detail) st').1 := by
  induction os generalizing st st' with
  | nil => exact h
  | cons o os ih => exact ih _ _ (processObject_fst_congr _ _ _ _ _ h)

/-- An object whose detail page fetch or parse fails contributes no
observations: the observation component is passed through unchanged. -/
lemma processObject_fails_fst (nt : String) (detail : ℤ → DetailResult)
    (st : List SObs × List String) (o : WObject) (i : ℤ)
    (hid : o.id = some i) (hi : i ≠ 0) (hf : detailFails (detail i) = true) :
    (processObject nt detail st o).1 = st.1 := by
  unfold processObject
  rw [hid]
  simp only [if_neg hi]
  cases hdet : detail i with
  | ok mapper => rw [hdet] at hf; simp [detailFails] at hf
  | fetchFail msg => rfl
  | noMarker => rfl
  | badJson => rfl

/-- An object with a falsy id (absent, `None`, or `0`) is a no-op for the
whole loop state, log included. -/
lemma processObject_falsy_id (nt : String) (detail : ℤ → DetailResult)
    (o : WObject) (hid : o.id = none ∨ o.id = some 0)
    (st : List SObs × List String) :
    processObject nt detail st o = st := by
  unfold processObject
  rcases hid with h | h <;> rw [h]
  simp

/-! ### C8: failure isolation in scrape_nodes -/

/-- C8: in `scrape_nodes`, (a) when one object's detail page fetch or parse
fails, the observations returned are exactly those of the batch without that
object — the other objects are still parsed and included — and (b) when the
top-level list page fetch or parse fails in any way, the returned observation
list is empty; the embedding is a total function, so neither failure escapes
the category boundary. -/
theorem scrape_nodes_failure_containment
    (nt exp url : String) (fl fl' : String → ListFetchResult)
    (detail : ℤ → DetailResult) (pre post : List WObject) (o : WObject)
    (i : ℤ) (lp : ListFetchResult)
    (hurl : List.lookup (pyLower nt) WOWHEAD_OBJECT_PAGES = some url) :
    (fl url = .ok (pre ++ o :: post) → fl' url = .ok (pre ++ post) →
        o.id = some i → i ≠ 0 → detailFails (detail i) = true →
        (scrape_nodes nt exp fl detail).1 = (scrape_nodes nt exp fl' detail).1) ∧
      (fl url = lp → listFails lp = true →
        (scrape_nodes nt exp fl detail).1 = []) := by
  constructor
  · intro h1 h2 hid hi hf
    unfold scrape_nodes
    rw [hurl]
    show (scrapeFromList nt url (fl url) detail).1 =
      (scrapeFromList nt url (fl' url) detail).1
    rw [h1, h2]
    simp only [scrapeFromList, List.foldl_append, List.foldl_cons]
    exact foldl_processObject_fst_congr _ _ _ _ _
      (processObject_fails_fst _ _ _ _ _ hid hi hf)
  · intro h1 h2
    unfold scrape_nodes
    rw [hurl]
    show (scrapeFromList nt url (fl url) detail).1 = []
    rw [h1]
    cases lp with
    | ok objects => simp [listFails] at h2
    | fetchFail msg => rfl
    | noListData => rfl
    | noMatch => rfl
    | jsonFail msg => rfl

/-- C8 witness: a two-object mining batch where the first object's detail
fetch times out, compared with the one-object batch without it; and a listing
page whose fetch fails, which yields no observations. -/
theorem scrape_nodes_failure_containment_witness :
    ((scrape_nodes "mining" "Dragonflight"
        (fun _ => .ok [⟨some 5, some "Ore", none⟩, ⟨some 7, some "Rich Ore", none⟩])
        (fun i => if i = 5 then .fetchFail "timeout"
          else .ok [[⟨some "Z", [some (1, 2)]⟩]])).1 =
      (scrape_nodes "mining" "Dragonflight"
        (fun _ => .ok [⟨some 7, some "Rich Ore", none⟩])
        (fun i => if i = 5 then .fetchFail "timeout"
          else .ok [[⟨some "Z", [some (1, 2)]⟩]])).1) ∧
    (scrape_nodes "mining" "Dragonflight" (fun _ => .fetchFail "down")
        (fun _ => .ok [])).1 = [] :=
  ⟨(scrape_nodes_failure_containment "mining" "Dragonflight"
      "https://www.wowhead.com/objects/mining"
      (fun _ => .ok [⟨some 5, some "Ore", none⟩, ⟨some 7, some "Rich Ore", none⟩])
      (fun _ => .ok [⟨some 7, some "Rich Ore", none⟩])
      (fun i => if i = 5 then .fetchFail "timeout"
        else .ok [[⟨some "Z", [some (1, 2)]⟩]])
      [] [⟨some 7, some "Rich Ore", none⟩] ⟨some 5, some "Ore", none⟩ 5
      (.fetchFail "down") (by decide)).1
      rfl rfl rfl (by decide) rfl,
    (scrape_nodes_failure_containment "mining" "Dragonflight"
      "https://www.wowhead.com/objects/mining"
      (fun _ => .fetchFail "down") (fun _ => .fetchFail "down")
      (fun _ => .ok []) [] [] ⟨none, none, none⟩ 0 (.fetchFail "down")
      (by decide)).2 rfl rfl⟩

/-! ### C10: objects with falsy ids are skipped before fetching -/

/-- C10: an object whose `id` is absent, `None`, or the integer `0`
contributes nothing at all to `scrape_nodes`: the full result — observations
and log — equals that of the batch without the object, so its detail page is
never fetched (no `Fetching .../object=` line is emitted for it) and an id of
`0` behaves exactly like an absent id. -/
theorem scrape_nodes_skips_falsy_id
    (nt exp url : String) (fl fl' : String → ListFetchResult)
    (detail : ℤ → DetailResult) (pre post : List WObject) (o : WObject)
    (hurl : List.lookup (pyLower nt) WOWHEAD_OBJECT_PAGES = some url)
    (hfl : fl url = .ok (pre ++ o :: post))
    (hfl' : fl' url = .ok (pre ++ post))
    (hid : o.id = none ∨ o.id = some 0) :
    scrape_nodes nt exp fl detail = scrape_nodes nt exp fl' detail := by
  unfold scrape_nodes
  rw [hurl]
  show scrapeFromList nt url (fl url) detail =
    scrapeFromList nt url (fl' url) detail
  rw [hfl, hfl']
  simp only [scrapeFromList, List.foldl_append, List.foldl_cons,
    processObject_falsy_id nt detail o hid]

/-- C10 witness: a batch holding one object with id `0` and one with no id,
next to a well-formed object; the run is identical to the one without them
applied twice would need two removals, so the witness removes the id-`0`
object and checks the full results coincide. -/
theorem scrape_nodes_skips_falsy_id_witness :
    scrape_nodes "herbalism" "Dragonflight"
        (fun _ => .ok [⟨some 0, some "Weed", none⟩, ⟨some 7, some "Herb", none⟩])
        (fun _ => .ok [[⟨some "Z", [some (1, 2)]⟩]]) =
      scrape_nodes "herbalism" "Dragonflight"
        (fun _ => .ok [⟨some 7, some "Herb", none⟩])
        (fun _ => .ok [[⟨some "Z", [some (1, 2)]⟩]]) :=
  scrape_nodes_skips_falsy_id "herbalism" "Dragonflight"
    "https://www.wowhead.com/objects/herbs"
    (fun _ => .ok [⟨some 0, some "Weed", none⟩, ⟨some 7, some "Herb", none⟩])
    (fun _ => .ok [⟨some 7, some "Herb", none⟩])
    (fun _ => .ok [[⟨some "Z", [some (1, 2)]⟩]])
    [] [⟨some 7, some "Herb", none⟩] ⟨some 0, some "Weed", none⟩
    (by decide) rfl rfl (Or.inr rfl)
